import Mathlib

/-!
Shallow embedding of the session/query/cache core of the
`python3-webmail` repository:

* `src/webmail/client.py` — `MailClient` (the IMAP session) and
  `IMAPQuery` (the immutable query builder);
* `src/webmail/application.py` — the cache-or-fetch logic of
  `BaseCommand` (`cache_has_message`, `cache_fetch_message`,
  `cache_save_message`, `fetch_message`, `fetch_message_headers`).

Conventions of the embedding:

* Python exceptions are modelled by `Except PyError`; fallible
  operations return `Except PyError α` and state-changing ones also
  thread the mutated state explicitly.
* Raw message bytes are `List Nat`; the external `pyzmail` library's
  `PyzMessage.factory` / `as_string().encode(...)` pair is modelled as
  the identity on raw bytes (the library is outside this repository).
* The external `imaplib` transport is modelled by the `ImapTransport`
  structure, abstracting the wire-line parsing of responses into
  already-structured results (that parsing lives in `imaplib` / thin
  decode code, not in the logic the claims are about).
* `os.path.join`/`os.path.expanduser` are modelled as slash-joined
  string concatenation / the identity, and the filesystem is the
  explicit `FS` state with failure-injection flags for `os.makedirs`
  and file writes.
-/

namespace Webmail

/-- Raw bytes of a wire-format message (`bytes` in Python). -/
abbrev Bytes := List Nat

/-- The Python exceptions that the embedded code can raise.
`attributeError a` models the `AttributeError` raised when a method
named `a` is looked up on `None` (for instance `self.imap.uid` while
disconnected); `mailClientException` models `webmail.client.MailClientException`;
`valueError` models `ValueError`; `exceptionErr` models a bare
`Exception(...)`; `osError` models `OSError` from filesystem calls. -/
inductive PyError where
  | attributeError (attr : String)
  | mailClientException (msg : String)
  | valueError (msg : String)
  | exceptionErr (msg : String)
  | osError (msg : String)
deriving DecidableEq, Repr

/-- Whether an error is the `MailClientException` class (the "not
connected" condition of the spec is raised through this class). -/
def PyError.isMailClientException : PyError → Bool
  | .mailClientException _ => true
  | _ => false

/-- A parsed message (`pyzmail.PyzMessage`), carrying the raw bytes it
was parsed from.  `pyzmail` is an external library; parsing and
re-serialisation (`as_string().encode(enc)`) are modelled as the
identity on the raw bytes. -/
structure Message where
  raw : Bytes
deriving DecidableEq, Repr

/-- `pyzmail.PyzMessage.factory` — parse raw bytes into a message. -/
def PyzMessage.factory (b : Bytes) : Message := ⟨b⟩

/-- `message.as_string ().encode (file_encoding)` — serialise a message
back to raw bytes (identity in this model). -/
def Message.asEncodedString (m : Message) : Bytes := m.raw

/-- `IMAPQuery` (src/webmail/client.py:165-413): an immutable query
builder holding a list of phrases, each phrase an ordered list of wire
tokens. -/
structure IMAPQuery where
  phrases : List (List String) := []
deriving DecidableEq, Repr

/-- The Python expression `"\"%s\"" % s`: wrap a string argument in
double quotes, as the leaf predicates do. -/
def pyQuote (s : String) : String := "\"" ++ s ++ "\""

/-- `IMAPQuery.__str__` (client.py:176-182): flatten all phrases into
one token list (`sb.extend (phrase)` in a loop) and space-join it. -/
def IMAPQuery.toStr (q : IMAPQuery) : String :=
  " ".intercalate (q.phrases.foldl (fun sb phrase => sb ++ phrase) [])

/-- `IMAPQuery.extend` (client.py:185-191): return a new query with the
given token group appended as one additional phrase (`*args`). -/
def IMAPQuery.extend (q : IMAPQuery) (args : List String) : IMAPQuery :=
  ⟨q.phrases ++ [args]⟩

/-- `IMAPQuery.extend_query` (client.py:194-200). -/
def IMAPQuery.extend_query (q : IMAPQuery) (query : IMAPQuery) : IMAPQuery :=
  ⟨q.phrases ++ query.phrases⟩

/-- `IMAPQuery.all` (client.py:203-204). -/
def IMAPQuery.all (q : IMAPQuery) : IMAPQuery := q.extend ["ALL"]

/-- `IMAPQuery.answered` (client.py:207-208). -/
def IMAPQuery.answered (q : IMAPQuery) : IMAPQuery := q.extend ["ANSWERED"]

/-- `IMAPQuery.bcc` (client.py:211-212): note the address is passed
through unquoted in the source. -/
def IMAPQuery.bcc (q : IMAPQuery) (addr : String) : IMAPQuery :=
  q.extend ["BCC", addr]

/-- `IMAPQuery.body` (client.py:225-226). -/
def IMAPQuery.body (q : IMAPQuery) (s : String) : IMAPQuery :=
  q.extend ["BODY", pyQuote s]

/-- `IMAPQuery.cc` (client.py:229-230): unquoted, like `bcc`. -/
def IMAPQuery.cc (q : IMAPQuery) (addr : String) : IMAPQuery :=
  q.extend ["CC", addr]

/-- `IMAPQuery.deleted` (client.py:238-239). -/
def IMAPQuery.deleted (q : IMAPQuery) : IMAPQuery := q.extend ["DELETED"]

/-- `IMAPQuery.flagged` (client.py:250-251). -/
def IMAPQuery.flagged (q : IMAPQuery) : IMAPQuery := q.extend ["FLAGGED"]

/-- `IMAPQuery.from_q` (client.py:254-255). -/
def IMAPQuery.from_q (q : IMAPQuery) (s : String) : IMAPQuery :=
  q.extend ["FROM", pyQuote s]

/-- `IMAPQuery.larger` (client.py:266-267). -/
def IMAPQuery.larger (q : IMAPQuery) (n : Nat) : IMAPQuery :=
  q.extend ["LARGER", toString n]

/-- `IMAPQuery.smaller` (client.py:371-372). -/
def IMAPQuery.smaller (q : IMAPQuery) (n : Nat) : IMAPQuery :=
  q.extend ["SMALLER", toString n]

/-- `IMAPQuery.subject` (client.py:375-376). -/
def IMAPQuery.subject (q : IMAPQuery) (s : String) : IMAPQuery :=
  q.extend ["SUBJECT", pyQuote s]

/-- `IMAPQuery.text` (client.py:379-380). -/
def IMAPQuery.text (q : IMAPQuery) (s : String) : IMAPQuery :=
  q.extend ["TEXT", pyQuote s]

/-- `IMAPQuery.to_q` (client.py:383-384). -/
def IMAPQuery.to_q (q : IMAPQuery) (s : String) : IMAPQuery :=
  q.extend ["TO", pyQuote s]

/-- `IMAPQuery.undraft` (client.py:399-400). -/
def IMAPQuery.undraft (q : IMAPQuery) : IMAPQuery := q.extend ["UNDRAFT"]

/-- `IMAPQuery.unflagged` (client.py:403-404): the source extends with
the token `UNDRAFT`, not `UNFLAGGED`. -/
def IMAPQuery.unflagged (q : IMAPQuery) : IMAPQuery := q.extend ["UNDRAFT"]

/-- `IMAPQuery.unseen` (client.py:411-412). -/
def IMAPQuery.unseen (q : IMAPQuery) : IMAPQuery := q.extend ["UNSEEN"]

/-- `IMAPQuery.not_q` (client.py:274-285): for each phrase of the given
query, extend with that phrase prepended by the token `NOT`. -/
def IMAPQuery.not_q (q : IMAPQuery) (query : IMAPQuery) : IMAPQuery :=
  query.phrases.foldl (fun acc phrase => acc.extend ("NOT" :: phrase)) q

/-- `IMAPQuery.or_q` (client.py:302-320): extend with the phrase
`["OR"]`, then — after checking that each operand holds exactly one
phrase, raising `ValueError` otherwise — extend with each operand's
phrases in turn. -/
def IMAPQuery.or_q (self : IMAPQuery) (queryA queryB : IMAPQuery) :
    Except PyError IMAPQuery :=
  let q := self.extend ["OR"]
  if queryA.phrases.length ≠ 1 ∨ queryB.phrases.length ≠ 1 then
    .error (.valueError
      "There must be only one phrase in each query parameter to IMAPQuery.or_q.")
  else
    .ok (queryB.phrases.foldl IMAPQuery.extend
          (queryA.phrases.foldl IMAPQuery.extend q))

/-- `IMAPQuery.contains` (client.py:233-235): sugar for
`self.or_q (q.subject (s), q.text (s))` with `q` a fresh empty query. -/
def IMAPQuery.contains (self : IMAPQuery) (s : String) :
    Except PyError IMAPQuery :=
  let q : IMAPQuery := {}
  self.or_q (q.subject s) (q.text s)

/-- Python's `str.split ()` (no argument): split on runs of whitespace
and drop empty fragments; modelled here over the space character, the
separator `imaplib` responses use. -/
def pySplit (s : String) : List String :=
  (s.split (fun c => c = ' ')).filter (fun x => ¬ x.isEmpty)

/-- Abstract model of the authenticated `imaplib.IMAP4_SSL` transport
(`self.imap` in `MailClient`).  Each field gives the structured content
of one remote response; the thin response-line parsing done by
`imaplib` and by `MailClient` (`int (response[0].split ()[-1][:-1])`
for sizes) is abstracted into these fields.  `select` returns the
status token (`OK` or `NO`) together with the response message, as
`imaplib`'s `select` does. -/
structure ImapTransport where
  uidFetchBody : String → Option Bytes
  uidFetchSize : String → Option Nat
  uidFetchHeader : String → Option Bytes
  uidSearch : String → List String
  select : String → Bool → String × String
  statusUnseen : String → Nat

/-- `MailClient` (client.py:24-162): the session state — an optional
transport handle (`self.imap`, `None` until `connect`) and the name of
the currently selected mailbox (`self.mailbox`). -/
structure MailClient where
  imap : Option ImapTransport := none
  mailbox : Option String := none

/-- `MailClient.is_connected` (client.py:158-162). -/
def MailClient.is_connected (c : MailClient) : Bool :=
  match c.imap with
  | none => false
  | some _ => true

/-- `MailClient.fetch_message_body` (client.py:46-55): `self.imap.uid`
on a disconnected client dereferences `None` and raises
`AttributeError`; otherwise the raw RFC822 bytes, or `None` when the
response holds no message. -/
def MailClient.fetch_message_body (c : MailClient) (id : String) :
    Except PyError (Option Bytes) :=
  match c.imap with
  | none => .error (.attributeError "uid")
  | some t => .ok (t.uidFetchBody id)

/-- `MailClient.fetch_message_size` (client.py:58-67). -/
def MailClient.fetch_message_size (c : MailClient) (id : String) :
    Except PyError (Option Nat) :=
  match c.imap with
  | none => .error (.attributeError "uid")
  | some t => .ok (t.uidFetchSize id)

/-- `MailClient.fetch_message_headers` (client.py:70-80): header-only
fetch, parsed through `pyzmail.PyzMessage.factory`. -/
def MailClient.fetch_message_headers (c : MailClient) (id : String) :
    Except PyError (Option Message) :=
  match c.imap with
  | none => .error (.attributeError "uid")
  | some t => .ok ((t.uidFetchHeader id).map PyzMessage.factory)

/-- `MailClient.fetch_message` (client.py:83-94): fetch the body, and
when present parse the result of a second, identical body fetch (the
source fetches twice; in this pure model both fetches return the same
bytes). -/
def MailClient.fetch_message (c : MailClient) (id : String) :
    Except PyError (Option Message) :=
  match c.fetch_message_body id with
  | .error e => .error e
  | .ok none => .ok none
  | .ok (some body) => .ok (some (PyzMessage.factory body))

/-- `MailClient.fetch_unread_ids` (client.py:97-108): `uid ('search',
'(UNSEEN)')`, each response line decoded and whitespace-split. -/
def MailClient.fetch_unread_ids (c : MailClient) :
    Except PyError (List String) :=
  match c.imap with
  | none => .error (.attributeError "uid")
  | some t =>
    .ok ((t.uidSearch "(UNSEEN)").foldl (fun ids line => ids ++ pySplit line) [])

/-- `MailClient.search` (client.py:111-124): `uid ('search', str (q))`,
each response line decoded and whitespace-split. -/
def MailClient.search (c : MailClient) (q : IMAPQuery) :
    Except PyError (List String) :=
  match c.imap with
  | none => .error (.attributeError "uid")
  | some t =>
    .ok ((t.uidSearch q.toStr).foldl (fun ids line => ids ++ pySplit line) [])

/-- `MailClient.flag` (client.py:127-132): `uid ('store', uid,
'+FLAGS', *flags)`; the store mutation on the remote side is not
tracked by this model, only its reachability. -/
def MailClient.flag (c : MailClient) (_uid : String) (_flags : List String) :
    Except PyError Unit :=
  match c.imap with
  | none => .error (.attributeError "uid")
  | some _ => .ok ()

/-- `MailClient.unflag` (client.py:135-140). -/
def MailClient.unflag (c : MailClient) (_uid : String) (_flags : List String) :
    Except PyError Unit :=
  match c.imap with
  | none => .error (.attributeError "uid")
  | some _ => .ok ()

/-- `MailClient.set_mailbox` (client.py:143-151): raises
`MailClientException` when not connected; otherwise assigns
`self.mailbox` FIRST, then issues the remote select on the quoted
name, and raises `MailClientException` when the select status is
`NO`.  Returns the updated client state together with the outcome. -/
def MailClient.set_mailbox (c : MailClient) (mailbox : String)
    (readonly : Bool) : MailClient × Except PyError Unit :=
  match c.imap with
  | none =>
    (c, .error (.mailClientException "Cannot set mailbox, not connected."))
  | some t =>
    let c1 : MailClient := { c with mailbox := some mailbox }
    let sm := t.select (pyQuote mailbox) readonly
    if sm.1 = "NO" then
      (c1, .error (.mailClientException
        ("Could not change mailboxes: " ++ sm.2)))
    else
      (c1, .ok ())

/-- `MailClient.get_mailbox` (client.py:154-155). -/
def MailClient.get_mailbox (c : MailClient) : Option String := c.mailbox

/-- Modelled from the spec: `MailClient.fetch_unread_count` is invoked
at src/test.py:10 (`client.fetch_unread_count ()`) but its definition
is absent from src/webmail/client.py.  Following §4.1 of the spec —
"`fetchUnreadCount() → integer`: queries mailbox status directly rather
than listing identifiers" — it issues a STATUS (UNSEEN) query against
the selected mailbox through the transport's `statusUnseen` field and
returns the reported count. -/
def MailClient.fetch_unread_count (c : MailClient) : Except PyError Nat :=
  match c.imap with
  | none => .error (.attributeError "status")
  | some t =>
    match c.mailbox with
    | none => .error (.exceptionErr "no mailbox selected")
    | some mb => .ok (t.statusUnseen mb)

/-- The configuration settings of `BaseCommand.config`
(application.py:32-76) that the cache logic reads. -/
structure Config where
  cache_enabled : Bool := true
  cache_dir : String := "~/.webmail/"
  account : String := "default"
deriving DecidableEq, Repr

/-- The local filesystem state seen by the cache: existing directories,
files as an association list from absolute filename to content (most
recent binding first), and failure-injection flags for `os.makedirs`
(raising `OSError`) and for opening a file for writing. -/
structure FS where
  dirs : List String := []
  files : List (String × Bytes) := []
  mkdirFails : Bool := false
  writeFails : Bool := false
deriving DecidableEq, Repr

namespace BaseCommand

/-- The per-account cache directory `os.path.join (os.path.expanduser
(config ['cache_dir']), config ['account'])` of
`cache_filename_for_uid` / `cache_save_message`; path join modelled as
slash concatenation, `expanduser` as the identity. -/
def cache_dir_path (cfg : Config) : String :=
  cfg.cache_dir ++ "/" ++ cfg.account

/-- `BaseCommand.cache_filename_for_uid` (application.py:284-293). -/
def cache_filename_for_uid (cfg : Config) (uid : String) : String :=
  cache_dir_path cfg ++ "/" ++ uid ++ ".webmail"

/-- `BaseCommand.cache_has_message` (application.py:296-318): `False`
when the cache is disabled, otherwise `os.path.exists` on the cache
filename. -/
def cache_has_message (cfg : Config) (fs : FS) (uid : String) : Bool :=
  if ¬ cfg.cache_enabled then false
  else ((fs.files.lookup (cache_filename_for_uid cfg uid)).isSome : Bool)

/-- `BaseCommand.cache_fetch_message` (application.py:321-353): `None`
when the cache is disabled; otherwise read the cache file and parse it
(`FileNotFoundError` on a missing file is caught and yields `None`). -/
def cache_fetch_message (cfg : Config) (fs : FS) (uid : String) :
    Option Message :=
  if ¬ cfg.cache_enabled then none
  else (fs.files.lookup (cache_filename_for_uid cfg uid)).map PyzMessage.factory

/-- `BaseCommand.cache_save_message` (application.py:423-455): create
the per-account directory when absent (a failing `os.makedirs` is
re-raised as `Exception ("Unable to create cache directory: ...")`),
then write the serialised message to the cache file.  The enclosing
`except` block prints the failure and re-raises it (`raise e`), so any
failure is returned as an error alongside the filesystem state. -/
def cache_save_message (cfg : Config) (fs : FS) (uid : String)
    (message : Message) : FS × Except PyError Unit :=
  if fs.dirs.contains (cache_dir_path cfg) then
    if fs.writeFails then (fs, .error (.osError "open for writing failed"))
    else
      ({ fs with files :=
          (cache_filename_for_uid cfg uid, message.asEncodedString) :: fs.files },
       .ok ())
  else if fs.mkdirFails then
    (fs, .error (.exceptionErr "Unable to create cache directory"))
  else
    let fs1 : FS := { fs with dirs := cache_dir_path cfg :: fs.dirs }
    if fs1.writeFails then (fs1, .error (.osError "open for writing failed"))
    else
      ({ fs1 with files :=
          (cache_filename_for_uid cfg uid, message.asEncodedString) :: fs1.files },
       .ok ())

/-- `BaseCommand.fetch_message` (application.py:356-384): try the cache
when enabled; on a miss fetch from the server, and — when a message
came back and the cache is enabled — save it to the cache.  A raising
`cache_save_message` is NOT caught here, so its error propagates out
of `fetch_message`. -/
def fetch_message (cfg : Config) (client : MailClient) (fs : FS)
    (uid : String) : FS × Except PyError (Option Message) :=
  let cached : Option Message :=
    if cfg.cache_enabled then cache_fetch_message cfg fs uid else none
  match cached with
  | some m => (fs, .ok (some m))
  | none =>
    match client.fetch_message uid with
    | .error e => (fs, .error e)
    | .ok none => (fs, .ok none)
    | .ok (some m) =>
      if cfg.cache_enabled then
        match cache_save_message cfg fs uid m with
        | (fs1, .error e) => (fs1, .error e)
        | (fs1, .ok _) => (fs1, .ok (some m))
      else (fs, .ok (some m))

/-- `BaseCommand.fetch_message_headers` (application.py:387-420): fetch
the remote size; `None` when the message is absent; when the cache is
enabled and either no threshold is given or `size < threshold`, fetch
and save the full message unless already cached; finally fetch and
return the headers.  Errors raised inside the caching step (including
a raising `cache_save_message`) propagate. -/
def fetch_message_headers (cfg : Config) (client : MailClient) (fs : FS)
    (uid : String) (threshold : Option Nat) :
    FS × Except PyError (Option Message) :=
  match client.fetch_message_size uid with
  | .error e => (fs, .error e)
  | .ok none => (fs, .ok none)
  | .ok (some size) =>
    let underThreshold : Bool :=
      match threshold with
      | none => true
      | some t => size < t
    let cacheStep : FS × Option PyError :=
      if cfg.cache_enabled ∧ underThreshold then
        if ¬ cache_has_message cfg fs uid then
          match client.fetch_message uid with
          | .error e => (fs, some e)
          | .ok none => (fs, none)
          | .ok (some m) =>
            match cache_save_message cfg fs uid m with
            | (fs1, .error e) => (fs1, some e)
            | (fs1, .ok _) => (fs1, none)
        else (fs, none)
      else (fs, none)
    match cacheStep with
    | (fs1, some e) => (fs1, .error e)
    | (fs1, none) =>
      match client.fetch_message_headers uid with
      | .error e => (fs1, .error e)
      | .ok h => (fs1, .ok h)

end BaseCommand

/-- Helper: folding list append from an accumulator flattens the list
of phrases, as `__str__`'s `sb.extend (phrase)` loop does. -/
theorem foldl_append_eq_join (ps : List (List String)) (acc : List String) :
    ps.foldl (fun sb p => sb ++ p) acc = acc ++ ps.flatten := by
  induction ps generalizing acc with
  | nil => simp
  | cons p ps ih => simp [List.foldl_cons, ih]

/-- Helper: the loop of `not_q` appends one `NOT`-prefixed phrase per
phrase of its argument. -/
theorem not_q_foldl_phrases (ps : List (List String)) (q : IMAPQuery) :
    (ps.foldl (fun acc phrase => acc.extend ("NOT" :: phrase)) q).phrases
      = q.phrases ++ ps.map (fun p => "NOT" :: p) := by
  induction ps generalizing q with
  | nil => simp
  | cons p ps ih =>
    simp only [List.foldl_cons, List.map_cons]
    rw [ih]
    simp [IMAPQuery.extend]

/-- C2: serializing any builder yields exactly the space-joined
concatenation of each phrase's tokens in insertion (call) order, and
in particular `IMAPQuery().from_q("a@b").subject("hi")` serializes to
`FROM "a@b" SUBJECT "hi"`. -/
theorem C2_serialization_join :
    (∀ q : IMAPQuery, q.toStr = " ".intercalate q.phrases.flatten) ∧
    (((IMAPQuery.mk []).from_q "a@b").subject "hi").toStr
      = "FROM \"a@b\" SUBJECT \"hi\"" := by
  constructor
  · intro q
    simp [IMAPQuery.toStr, foldl_append_eq_join]
  · rfl

/-- C3: `or_q` on two single-phrase operands extends the receiver with
the phrase `OR`, then the operand phrases, serializing to `OR` followed
by the two operands' tokens; when either operand does not hold exactly
one phrase it raises `ValueError` instead of returning a builder. -/
theorem C3_or_q_shape :
    (∀ (q : IMAPQuery) (pa pb : List String),
       q.or_q ⟨[pa]⟩ ⟨[pb]⟩ = .ok ⟨q.phrases ++ [["OR"], pa, pb]⟩) ∧
    (∀ (q A B : IMAPQuery),
       A.phrases.length ≠ 1 ∨ B.phrases.length ≠ 1 →
       q.or_q A B = .error (.valueError
         "There must be only one phrase in each query parameter to IMAPQuery.or_q.")) := by
  constructor
  · intro q pa pb
    simp [IMAPQuery.or_q, IMAPQuery.extend]
  · intro q A B h
    simp only [IMAPQuery.or_q]
    rw [if_pos h]

/-- C3 witness: `or_q` on two concrete single-phrase queries produces
the `OR` shape, and on a two-phrase left operand raises the
`ValueError`. -/
theorem C3_or_q_shape_witness :
    (IMAPQuery.mk []).or_q ⟨[["SEEN"]]⟩ ⟨[["DRAFT"]]⟩
      = .ok ⟨[["OR"], ["SEEN"], ["DRAFT"]]⟩ ∧
    (IMAPQuery.mk []).or_q ⟨[["SEEN"], ["DRAFT"]]⟩ ⟨[["NEW"]]⟩
      = .error (.valueError
        "There must be only one phrase in each query parameter to IMAPQuery.or_q.") :=
  ⟨C3_or_q_shape.1 ⟨[]⟩ ["SEEN"] ["DRAFT"],
   C3_or_q_shape.2 ⟨[]⟩ ⟨[["SEEN"], ["DRAFT"]]⟩ ⟨[["NEW"]]⟩ (by decide)⟩

/-- C5 counterexample: `contains "x"` compiles to `OR SUBJECT "x"
TEXT "x"` (through `IMAPQuery.text`), while `or_q` of the subject and
`IMAPQuery.body` predicates compiles to `OR SUBJECT "x" BODY "x"`;
the two results differ, refuting the claimed equality with the
body-predicate combination. -/
theorem C5_contains_counterexample :
    (IMAPQuery.mk []).contains "x"
      = .ok ⟨[["OR"], ["SUBJECT", "\"x\""], ["TEXT", "\"x\""]]⟩ ∧
    (IMAPQuery.mk []).or_q ((IMAPQuery.mk []).subject "x")
        ((IMAPQuery.mk []).body "x")
      = .ok ⟨[["OR"], ["SUBJECT", "\"x\""], ["BODY", "\"x\""]]⟩ ∧
    (⟨[["OR"], ["SUBJECT", "\"x\""], ["TEXT", "\"x\""]]⟩ : IMAPQuery)
      ≠ ⟨[["OR"], ["SUBJECT", "\"x\""], ["BODY", "\"x\""]]⟩ :=
  ⟨rfl, rfl, by decide⟩

/-- C5 (amended): `contains s` is sugar for combining the SUBJECT
predicate and the TEXT predicate (not the BODY predicate) through
`or_q`: it equals `q.or_q (IMAPQuery().subject s) (IMAPQuery().text s)`
and always succeeds, contributing `OR SUBJECT "s" TEXT "s"`. -/
theorem C5_contains_is_or_subject_text (q : IMAPQuery) (s : String) :
    q.contains s
      = q.or_q ((IMAPQuery.mk []).subject s) ((IMAPQuery.mk []).text s) ∧
    q.contains s
      = .ok ⟨q.phrases ++ [["OR"], ["SUBJECT", pyQuote s], ["TEXT", pyQuote s]]⟩ := by
  constructor
  · rfl
  · simp [IMAPQuery.contains, IMAPQuery.or_q, IMAPQuery.subject, IMAPQuery.text,
      IMAPQuery.extend]

/-- C7: `not_q` distributes `NOT` over every phrase of its argument —
the result extends the receiver with one phrase per argument phrase,
each equal to that phrase with the token `NOT` prepended. -/
theorem C7_not_q_distributes (q query : IMAPQuery) :
    (q.not_q query).phrases
      = q.phrases ++ query.phrases.map (fun p => "NOT" :: p) :=
  not_q_foldl_phrases query.phrases q

/-- C8 evaluation at the failing inputs: `unflagged ()` contributes the
token `UNDRAFT` (client.py:404 duplicates the body of `undraft`), not
`UNFLAGGED` as the claim states; and `bcc` passes its address argument
through unquoted (client.py:212), unlike `from_q`, which quotes. -/
theorem C8_leaf_predicate_eval :
    (IMAPQuery.mk []).unflagged.toStr = "UNDRAFT" ∧
    ((IMAPQuery.mk []).bcc "John Doe").toStr = "BCC John Doe" ∧
    ((IMAPQuery.mk []).from_q "a@b").toStr = "FROM \"a@b\"" :=
  ⟨rfl, rfl, rfl⟩

/-- C4 (amended): on a session with no transport established, every
message operation fails immediately — but only `set_mailbox` fails
with the "not connected" `MailClientException`; `search`, the three
fetch operations, `fetch_unread_ids`, `flag` and `unflag` call
`self.imap.uid` on `None` and so fail with `AttributeError`, not the
"not connected" condition. -/
theorem C4_disconnected_operations (c : MailClient) (h : c.imap = none)
    (mb id : String) (ro : Bool) (q : IMAPQuery) (flags : List String) :
    (c.set_mailbox mb ro).2
      = .error (.mailClientException "Cannot set mailbox, not connected.") ∧
    c.search q = .error (.attributeError "uid") ∧
    c.fetch_message_body id = .error (.attributeError "uid") ∧
    c.fetch_message_size id = .error (.attributeError "uid") ∧
    c.fetch_message_headers id = .error (.attributeError "uid") ∧
    c.fetch_unread_ids = .error (.attributeError "uid") ∧
    c.flag id flags = .error (.attributeError "uid") ∧
    c.unflag id flags = .error (.attributeError "uid") := by
  refine ⟨?_, ?_, ?_, ?_, ?_, ?_, ?_, ?_⟩ <;>
    simp [MailClient.set_mailbox, MailClient.search, MailClient.fetch_message_body,
      MailClient.fetch_message_size, MailClient.fetch_message_headers,
      MailClient.fetch_unread_ids, MailClient.flag, MailClient.unflag, h]

/-- C4 witness: the amended statement evaluated on the freshly
constructed, never-connected client. -/
theorem C4_disconnected_operations_witness :
    ((MailClient.mk none none).set_mailbox "INBOX" true).2
      = .error (.mailClientException "Cannot set mailbox, not connected.") ∧
    (MailClient.mk none none).search ⟨[]⟩ = .error (.attributeError "uid") ∧
    (MailClient.mk none none).fetch_message_body "1"
      = .error (.attributeError "uid") ∧
    (MailClient.mk none none).fetch_message_size "1"
      = .error (.attributeError "uid") ∧
    (MailClient.mk none none).fetch_message_headers "1"
      = .error (.attributeError "uid") ∧
    (MailClient.mk none none).fetch_unread_ids
      = .error (.attributeError "uid") ∧
    (MailClient.mk none none).flag "1" ["\\Seen"]
      = .error (.attributeError "uid") ∧
    (MailClient.mk none none).unflag "1" ["\\Seen"]
      = .error (.attributeError "uid") :=
  C4_disconnected_operations ⟨none, none⟩ rfl "INBOX" "1" true ⟨[]⟩ ["\\Seen"]

/-- C4 counterexample: `search` invoked on a disconnected session does
fail, but with the `AttributeError` of dereferencing the absent
transport — not with the `MailClientException` carrying the "not
connected" condition, as the claim requires of every operation. -/
theorem C4_search_not_notconnected :
    (MailClient.mk none none).search ⟨[]⟩ = .error (.attributeError "uid") ∧
    (PyError.attributeError "uid").isMailClientException = false :=
  ⟨rfl, rfl⟩

/-- C9: `fetch_unread_count` on a connected session with a selected
mailbox returns the unread count reported by the mailbox STATUS query,
and its result depends only on the transport's status field — two
transports agreeing on `statusUnseen` (but arbitrary elsewhere, e.g.
in their search results) give the same count, so no identifier listing
is involved. -/
theorem C9_fetch_unread_count_status (t t2 : ImapTransport) (mb : String)
    (h : t.statusUnseen = t2.statusUnseen) :
    (MailClient.mk (some t) (some mb)).fetch_unread_count
      = .ok (t.statusUnseen mb) ∧
    (MailClient.mk (some t2) (some mb)).fetch_unread_count
      = (MailClient.mk (some t) (some mb)).fetch_unread_count := by
  constructor
  · rfl
  · simp [MailClient.fetch_unread_count, h]

/-- A transport whose mailbox status reports 3 unread messages and
whose search lists identifiers. -/
def transportStatusA : ImapTransport where
  uidFetchBody := fun _ => none
  uidFetchSize := fun _ => none
  uidFetchHeader := fun _ => none
  uidSearch := fun _ => ["1 2 3"]
  select := fun _ _ => ("OK", "ok")
  statusUnseen := fun _ => 3

/-- A transport with the same mailbox status as `transportStatusA` but
an empty search listing. -/
def transportStatusB : ImapTransport where
  uidFetchBody := fun _ => none
  uidFetchSize := fun _ => none
  uidFetchHeader := fun _ => none
  uidSearch := fun _ => []
  select := fun _ _ => ("OK", "ok")
  statusUnseen := fun _ => 3

/-- C9 witness: concrete transports differing in their search listings
but agreeing on mailbox status give the same unread count, 3. -/
theorem C9_fetch_unread_count_status_witness :
    (MailClient.mk (some transportStatusA) (some "INBOX")).fetch_unread_count
      = .ok (transportStatusA.statusUnseen "INBOX") ∧
    (MailClient.mk (some transportStatusB) (some "INBOX")).fetch_unread_count
      = (MailClient.mk (some transportStatusA) (some "INBOX")).fetch_unread_count :=
  C9_fetch_unread_count_status transportStatusA transportStatusB "INBOX" rfl

/-- C10: `set_mailbox` assigns the new mailbox name to the session
before issuing the remote select, so when the select fails with status
`NO` and the operation raises, `get_mailbox` afterwards returns the
name whose selection failed. -/
theorem C10_set_mailbox_not_atomic (c : MailClient) (t : ImapTransport)
    (h : c.imap = some t) (mb : String) (ro : Bool) (msg : String)
    (hsel : t.select (pyQuote mb) ro = ("NO", msg)) :
    (c.set_mailbox mb ro).1.get_mailbox = some mb ∧
    (c.set_mailbox mb ro).2
      = .error (.mailClientException ("Could not change mailboxes: " ++ msg)) := by
  constructor <;>
    simp [MailClient.set_mailbox, MailClient.get_mailbox, h, hsel]

/-- A transport whose select always fails with status `NO`. -/
def transportSelectNO : ImapTransport where
  uidFetchBody := fun _ => none
  uidFetchSize := fun _ => none
  uidFetchHeader := fun _ => none
  uidSearch := fun _ => []
  select := fun _ _ => ("NO", "no such mailbox")
  statusUnseen := fun _ => 0

/-- C10 witness: on a session with `OLD` selected, a failing select of
`NEW` leaves `get_mailbox` reporting `NEW`, the mailbox whose
selection failed, while the operation raises. -/
theorem C10_set_mailbox_not_atomic_witness :
    ((MailClient.mk (some transportSelectNO) (some "OLD")).set_mailbox
        "NEW" false).1.get_mailbox = some "NEW" ∧
    ((MailClient.mk (some transportSelectNO) (some "OLD")).set_mailbox
        "NEW" false).2
      = .error (.mailClientException
          ("Could not change mailboxes: " ++ "no such mailbox")) :=
  C10_set_mailbox_not_atomic ⟨some transportSelectNO, some "OLD"⟩
    transportSelectNO rfl "NEW" false "no such mailbox" rfl

/-- Whether a fetch outcome completed and returned a message. -/
def returnsMessage : FS × Except PyError (Option Message) → Bool
  | (_, .ok (some _)) => true
  | _ => false

/-- A cache-enabled configuration. -/
def cfgCache : Config :=
  { cache_enabled := true, cache_dir := "~/.webmail", account := "default" }

/-- A transport holding one message of size 5 with body bytes `[1, 2]`
and header bytes `[9]` under every UID. -/
def transportMsg : ImapTransport where
  uidFetchBody := fun _ => some [1, 2]
  uidFetchSize := fun _ => some 5
  uidFetchHeader := fun _ => some [9]
  uidSearch := fun _ => []
  select := fun _ _ => ("OK", "ok")
  statusUnseen := fun _ => 0

/-- A filesystem where the per-account cache directory exists, no cache
file exists, and writes succeed. -/
def fsReady : FS :=
  { dirs := ["~/.webmail/default"], files := [],
    mkdirFails := false, writeFails := false }

/-- Like `fsReady`, but opening a file for writing fails. -/
def fsWriteFail : FS :=
  { dirs := ["~/.webmail/default"], files := [],
    mkdirFails := false, writeFails := true }

/-- C1 (amended): with the cache enabled, an uncached message of known
remote size, and a writable cache directory,
`BaseCommand.fetch_message_headers` with threshold `T` always returns
the fetched (header) message; it skips writing a cache entry exactly
when the remote size is at least `T` (so also at size exactly `T`, not
only when the size exceeds `T`); when the size is below `T` it writes
the cache entry, and a subsequent cache load for the same key returns
a message with bytes identical to those that were saved. -/
theorem C1_threshold_cache_policy (cfg : Config) (t : ImapTransport)
    (mb : Option String) (fs : FS) (uid : String) (T size : Nat) (b hb : Bytes)
    (hen : cfg.cache_enabled = true)
    (hsize : t.uidFetchSize uid = some size)
    (hbody : t.uidFetchBody uid = some b)
    (hhead : t.uidFetchHeader uid = some hb)
    (hmiss : fs.files.lookup (BaseCommand.cache_filename_for_uid cfg uid) = none)
    (hdir : fs.dirs.contains (BaseCommand.cache_dir_path cfg) = true)
    (hw : fs.writeFails = false) :
    (BaseCommand.fetch_message_headers cfg ⟨some t, mb⟩ fs uid (some T)).2
      = .ok (some ⟨hb⟩) ∧
    (T ≤ size →
      (BaseCommand.fetch_message_headers cfg ⟨some t, mb⟩ fs uid (some T)).1
        = fs) ∧
    (size < T →
      (BaseCommand.fetch_message_headers cfg ⟨some t, mb⟩ fs uid (some T)).1
        = { fs with files :=
              (BaseCommand.cache_filename_for_uid cfg uid, b) :: fs.files } ∧
      BaseCommand.cache_fetch_message cfg
          (BaseCommand.fetch_message_headers cfg ⟨some t, mb⟩ fs uid (some T)).1
          uid
        = some ⟨b⟩) := by
  have hdir2 : BaseCommand.cache_dir_path cfg ∈ fs.dirs := by
    simpa using hdir
  have hhm : BaseCommand.cache_has_message cfg fs uid = false := by
    simp [BaseCommand.cache_has_message, hen, hmiss]
  have hsave : BaseCommand.cache_save_message cfg fs uid ⟨b⟩
      = ({ fs with files :=
            (BaseCommand.cache_filename_for_uid cfg uid, b) :: fs.files },
         .ok ()) := by
    simp [BaseCommand.cache_save_message, hdir2, hw, Message.asEncodedString]
  by_cases hlt : size < T
  · have hrun : BaseCommand.fetch_message_headers cfg ⟨some t, mb⟩ fs uid (some T)
        = ({ fs with files :=
              (BaseCommand.cache_filename_for_uid cfg uid, b) :: fs.files },
           .ok (some ⟨hb⟩)) := by
      simp [BaseCommand.fetch_message_headers, MailClient.fetch_message_size,
        MailClient.fetch_message, MailClient.fetch_message_body,
        MailClient.fetch_message_headers, PyzMessage.factory,
        hsize, hbody, hhead, hlt, hen, hhm, hsave]
    refine ⟨by rw [hrun], fun hle => absurd hlt (not_lt.mpr hle), fun _ => ⟨by rw [hrun], ?_⟩⟩
    rw [hrun]
    simp [BaseCommand.cache_fetch_message, hen, List.lookup, PyzMessage.factory]
  · have hrun : BaseCommand.fetch_message_headers cfg ⟨some t, mb⟩ fs uid (some T)
        = (fs, .ok (some ⟨hb⟩)) := by
      simp [BaseCommand.fetch_message_headers, MailClient.fetch_message_size,
        MailClient.fetch_message_headers, PyzMessage.factory,
        hsize, hhead, hlt, hen]
    exact ⟨by rw [hrun], fun _ => by rw [hrun], fun h => absurd h hlt⟩

/-- C1 witness: with threshold 10 and remote size 5, the message body
is fetched, saved under the cache filename, and loading the cache for
the same UID returns the identical bytes `[1, 2]`; the headers are
returned. -/
theorem C1_threshold_cache_policy_witness :
    (BaseCommand.fetch_message_headers cfgCache ⟨some transportMsg, none⟩
        fsReady "7" (some 10)).2 = .ok (some ⟨[9]⟩) ∧
    (BaseCommand.fetch_message_headers cfgCache ⟨some transportMsg, none⟩
        fsReady "7" (some 10)).1
      = { fsReady with files :=
            (BaseCommand.cache_filename_for_uid cfgCache "7", [1, 2])
              :: fsReady.files } ∧
    BaseCommand.cache_fetch_message cfgCache
        (BaseCommand.fetch_message_headers cfgCache ⟨some transportMsg, none⟩
            fsReady "7" (some 10)).1 "7"
      = some ⟨[1, 2]⟩ := by
  have h := C1_threshold_cache_policy cfgCache transportMsg none fsReady "7"
    10 5 [1, 2] [9] rfl rfl rfl rfl rfl (by decide) rfl
  exact ⟨h.1, (h.2.2 (by decide)).1, (h.2.2 (by decide)).2⟩

/-- C1 counterexample: at remote size exactly equal to the threshold
(both 5), the size does not exceed the threshold, so the claim ("skipped
exactly when the remote size exceeds T") requires a cache entry to be
written — yet the code, which caches only when `size < threshold`,
leaves the filesystem unchanged (no cache entry) while still returning
the fetched headers. -/
theorem C1_boundary_counterexample :
    transportMsg.uidFetchSize "7" = some 5 ∧
    ¬ 5 > 5 ∧
    (BaseCommand.fetch_message_headers cfgCache ⟨some transportMsg, none⟩
        fsReady "7" (some 5)).1 = fsReady ∧
    (BaseCommand.fetch_message_headers cfgCache ⟨some transportMsg, none⟩
        fsReady "7" (some 5)).2 = .ok (some ⟨[9]⟩) :=
  ⟨rfl, by decide, rfl, rfl⟩

/-- C6 (amended): when writing the cache entry fails,
`cache_save_message` reports the failure and re-raises it; the
enclosing `BaseCommand.fetch_message` does not catch it, so the fetch
aborts with that error and the fetched message is NOT returned. -/
theorem C6_save_failure_aborts (cfg : Config) (t : ImapTransport)
    (mb : Option String) (fs : FS) (uid : String) (b : Bytes)
    (hen : cfg.cache_enabled = true)
    (hmiss : fs.files.lookup (BaseCommand.cache_filename_for_uid cfg uid) = none)
    (hbody : t.uidFetchBody uid = some b)
    (hdir : fs.dirs.contains (BaseCommand.cache_dir_path cfg) = true)
    (hw : fs.writeFails = true) :
    BaseCommand.fetch_message cfg ⟨some t, mb⟩ fs uid
      = (fs, .error (.osError "open for writing failed")) := by
  have hdir2 : BaseCommand.cache_dir_path cfg ∈ fs.dirs := by
    simpa using hdir
  simp [BaseCommand.fetch_message, BaseCommand.cache_fetch_message,
    BaseCommand.cache_save_message, MailClient.fetch_message,
    MailClient.fetch_message_body, hen, hmiss, hbody, hdir2, hw]

/-- C6 witness: the amended statement evaluated on a concrete
configuration, transport and failing filesystem. -/
theorem C6_save_failure_aborts_witness :
    BaseCommand.fetch_message cfgCache ⟨some transportMsg, none⟩ fsWriteFail "7"
      = (fsWriteFail, .error (.osError "open for writing failed")) :=
  C6_save_failure_aborts cfgCache transportMsg none fsWriteFail "7" [1, 2]
    rfl rfl rfl (by decide) rfl

/-- C6 counterexample: with a failing cache write, `fetch_message`
returns the write error and no message — refuting the claim that the
enclosing fetch still completes and returns the fetched message. -/
theorem C6_fetch_aborts_counterexample :
    BaseCommand.fetch_message cfgCache ⟨some transportMsg, none⟩ fsWriteFail "7"
      = (fsWriteFail, .error (.osError "open for writing failed")) ∧
    returnsMessage
        (BaseCommand.fetch_message cfgCache ⟨some transportMsg, none⟩
          fsWriteFail "7")
      = false :=
  ⟨rfl, rfl⟩

end Webmail
